import Mathlib

/-!
Verification of the database secret backend and the Okta configuration
module of the vault repository, via a shallow embedding of the Go source.

The database backend (package database, file modelled from src/unnamed/part_000)
keeps a registry of native connection handles in a map guarded by a single
mutex, reads per-database connection configuration from durable storage under
dbs/NAME, and decodes it according to a database_type tag. The Okta module
(src/builtin/credential/okta/path_config.go) is plain CRUD over one
configuration record.

Native *sql.DB handles are modelled as natural-number identifiers; the Go nil
handle is Option.none. The storage collaborator (get on a path returning an
error, no entry, or an entry whose JSON decoding may fail) is modelled by
GetResult. Mutex-guarded bodies are modelled as atomic state transitions:
the single lock in the Go source serializes DBConnection and ResetDB bodies,
so any concurrent execution is equivalent to a sequential interleaving of
whole calls.
-/

set_option autoImplicit false

namespace VaultDB

/-- Modelled from the spec: the typed postgres connection configuration
(configPostgres lives in a repository file outside src/; the spec treats
raw_config as an opaque, type-specific payload, so one opaque field). -/
structure ConfigPostgres where
  payload : String
deriving DecidableEq

/-- Modelled from the spec: the typed mysql connection configuration
(configMySQL lives in a repository file outside src/). -/
structure ConfigMySQL where
  payload : String
deriving DecidableEq

/-- A decoded engine-specific configuration, one variant per supported engine. -/
inductive EngineConfig where
  | postgres (c : ConfigPostgres)
  | mysql (c : ConfigMySQL)
deriving DecidableEq

/-- The opaque config_info bytes of a stored connection configuration.
json.Unmarshal of fixed bytes into a fixed schema is deterministic: the two
fields record its outcome for each engine schema (none = unmarshal error). -/
structure PayloadInfo where
  asPostgres : Option ConfigPostgres
  asMySQL : Option ConfigMySQL
deriving DecidableEq

/-- configDB from the source: the stored DatabaseConnectionConfig, a
database_type tag plus the opaque config_info payload. -/
structure ConfigDB where
  databaseType : String
  configInfo : PayloadInfo
deriving DecidableEq

/-- Modelled from the spec: LeaseConfig with default_ttl and max_ttl in
seconds (configLease lives in a repository file outside src/). -/
structure ConfigLease where
  defaultTTL : Int
  maxTTL : Int
deriving DecidableEq

/-- A stored entry, recorded by the outcome of each DecodeJSON target the
backend uses (none = DecodeJSON error for that target type). -/
structure StorageEntry where
  decodeConfigDB : Option ConfigDB
  decodeConfigLease : Option ConfigLease
deriving DecidableEq

/-- Outcome of the storage collaborator's get(path): a read error, no entry
stored under the path, or the stored entry. -/
inductive GetResult where
  | err
  | absent
  | entry (e : StorageEntry)
deriving DecidableEq

/-- The storage collaborator, path-keyed. -/
abbrev Storage := String → GetResult

/-- The pool map b.dbs. A Go map read b.dbs[name] yields nil both for a
missing key and for a stored nil value, and this code never distinguishes
the two, so the map is a function into Option Nat (none = nil handle). -/
abbrev DbsMap := String → Option Nat

/-- The distinct errors DBConnection and Lease can return. -/
inductive DBErr where
  | storageErr
  | notConfigured
  | decodeErr
  | unmarshalErr
  | unrecognizedType
deriving DecidableEq

/-- Modelled from the spec: the native connection-open step Connect (its body
lives in a repository file outside src/). Per the spec it opens a new native
connection from the typed config or fails. It receives the pool's current
handle by value and returns only success or failure to the caller; the model
lets it name the freshly opened handle (some h on success, none on failure)
so theorems can speak about that handle, but DBConnection, like the Go
caller, sees nothing of it beyond the error. -/
structure Connector where
  connect : Option Nat → EngineConfig → Option Nat

/-- Result of one DBConnection call: the returned (handle, error) pair, the
pool map after the call, and the number of invocations of the native open
step performed during the call (instrumentation for the duplicate-open
property; it does not alter control flow). -/
structure DBConnResult where
  result : Except DBErr (Option Nat)
  dbs : DbsMap
  connectCalls : Nat

/-- DBConnection from the source, the body executed under b.lock. Reads
dbs/NAME from storage, decodes it as configDB, switches on database_type
(postgres, mysql, default), unmarshals the engine config, invokes Connect
on the current map value, and returns b.dbs[name] with a nil error. The
error of the Connect call is assigned but never inspected, and no assignment
to b.dbs occurs, exactly as in the source. -/
def DBConnection (conn : Connector) (s : Storage) (dbs : DbsMap) (name : String) :
    DBConnResult :=
  match s ("dbs/" ++ name) with
  | GetResult.err => ⟨Except.error DBErr.storageErr, dbs, 0⟩
  | GetResult.absent => ⟨Except.error DBErr.notConfigured, dbs, 0⟩
  | GetResult.entry e =>
    match e.decodeConfigDB with
    | none => ⟨Except.error DBErr.decodeErr, dbs, 0⟩
    | some dbInfo =>
      if dbInfo.databaseType = "postgres" then
        match dbInfo.configInfo.asPostgres with
        | none => ⟨Except.error DBErr.unmarshalErr, dbs, 0⟩
        | some config =>
          let _ := conn.connect (dbs name) (EngineConfig.postgres config)
          ⟨Except.ok (dbs name), dbs, 1⟩
      else if dbInfo.databaseType = "mysql" then
        match dbInfo.configInfo.asMySQL with
        | none => ⟨Except.error DBErr.unmarshalErr, dbs, 0⟩
        | some config =>
          let _ := conn.connect (dbs name) (EngineConfig.mysql config)
          ⟨Except.ok (dbs name), dbs, 1⟩
      else ⟨Except.error DBErr.unrecognizedType, dbs, 0⟩

/-- ResetDB from the source, the body executed under b.lock: close the
handle stored for name when non-nil, then set the map entry to nil. The
second component lists the handles closed by the call. -/
def ResetDB (dbs : DbsMap) (name : String) : DbsMap × List Nat :=
  let closed := match dbs name with
    | some h => [h]
    | none => []
  (fun n => if n = name then none else dbs n, closed)

/-- Lease from the source: get config/lease, propagate a read error, return
none when no entry is stored, decode the entry as configLease and propagate
a decode error, otherwise return the decoded config. -/
def Lease (s : Storage) : Except DBErr (Option ConfigLease) :=
  match s "config/lease" with
  | GetResult.err => Except.error DBErr.storageErr
  | GetResult.absent => Except.ok none
  | GetResult.entry e =>
    match e.decodeConfigLease with
    | none => Except.error DBErr.decodeErr
    | some result => Except.ok (some result)

/-- A stored connection config for db1: tag postgres, payload that
unmarshals under the postgres schema. -/
def goodEntry : StorageEntry :=
  ⟨some ⟨"postgres", ⟨some ⟨"host=h"⟩, none⟩⟩, none⟩

/-- Storage holding only a valid postgres config under dbs/db1. -/
def storageDb1 : Storage :=
  fun p => if p = "dbs/db1" then GetResult.entry goodEntry else GetResult.absent

/-- Storage with no entries at all. -/
def storageEmpty : Storage := fun _ => GetResult.absent

/-- The pool map with no handles. -/
def emptyDbs : DbsMap := fun _ => none

/-- The pool map holding handle 7 for db1. -/
def dbs7 : DbsMap := fun n => if n = "db1" then some 7 else none

/-- A connector whose open step always succeeds, producing handle 42. -/
def okConnector : Connector := ⟨fun _ _ => some 42⟩

/-- A connector whose open step always fails. -/
def badConnector : Connector := ⟨fun _ _ => none⟩

end VaultDB

namespace Okta

/-- ConfigEntry from path_config.go: Org, Token, BaseURL, TTL, MaxTTL.
time.Duration values are modelled as Int nanoseconds. -/
structure ConfigEntry where
  org : String
  token : String
  baseURL : String
  ttl : Int
  maxTTL : Int
deriving DecidableEq

/-- The storage state under the path config: a read error, no entry, or a
stored entry whose DecodeJSON into ConfigEntry may fail (none). -/
inductive CfgStore where
  | err
  | absent
  | stored (decode : Option ConfigEntry)
deriving DecidableEq

/-- Config from the source: get the config entry, propagate a read error,
return nil when absent, decode the entry and propagate a decode error. -/
def Config : CfgStore → Except Unit (Option ConfigEntry)
  | CfgStore.err => Except.error ()
  | CfgStore.absent => Except.ok none
  | CfgStore.stored none => Except.error ()
  | CfgStore.stored (some c) => Except.ok (some c)

/-- The response data built by pathConfigRead: exactly the four keys the
source puts into resp.Data, nothing else. -/
structure ReadData where
  organization : String
  baseUrl : String
  ttl : Int
  maxTtl : Int
deriving DecidableEq

/-- Outcome of pathConfigRead: (nil, err), (nil, nil), or a response. -/
inductive ReadResult where
  | err
  | noContent
  | resp (data : ReadData)
deriving DecidableEq

/-- pathConfigRead from the source: load the config; on nil config return
(nil, nil); otherwise answer with organization, base_url, ttl, max_ttl. -/
def pathConfigRead (st : CfgStore) : ReadResult :=
  match Config st with
  | Except.error _ => ReadResult.err
  | Except.ok none => ReadResult.noContent
  | Except.ok (some cfg) => ReadResult.resp ⟨cfg.org, cfg.baseURL, cfg.ttl, cfg.maxTTL⟩

/-- The request's field data: for each schema field, some v when the raw
request supplies it (GetOk returns ok) and none when absent. The schema
declares no Default, so d.Get on an absent field yields the type's zero
value (empty string, 0 seconds). -/
structure FieldData where
  organization : Option String
  token : Option String
  baseUrl : Option String
  ttl : Option Int
  maxTtl : Option Int
deriving DecidableEq

/-- The operation kind reaching pathConfigWrite (its callbacks are
registered for CreateOperation and UpdateOperation). -/
inductive Operation where
  | create
  | update
deriving DecidableEq

/-- time.Second in nanoseconds. -/
def timeSecond : Int := 1000000000

/-- The field-merge portion of pathConfigWrite, in source order
(organization, token, base_url, ttl, max_ttl): a supplied field overwrites,
an absent field is taken from the request defaults on create and left
unchanged on update; a supplied non-empty base_url that fails url.Parse
(parseOK false) aborts with the error response. The parse success predicate
abstracts the external net/url collaborator. -/
def mergeOrg (op : Operation) (d : FieldData) (cfg : ConfigEntry) : ConfigEntry :=
  match d.organization with
  | some v => { cfg with org := v }
  | none => if op = Operation.create then { cfg with org := "" } else cfg

/-- Token merge step of pathConfigWrite, same shape as mergeOrg. -/
def mergeToken (op : Operation) (d : FieldData) (cfg : ConfigEntry) : ConfigEntry :=
  match d.token with
  | some v => { cfg with token := v }
  | none => if op = Operation.create then { cfg with token := "" } else cfg

/-- base_url merge step of pathConfigWrite: a supplied non-empty value must
parse (else the error response is returned before any write); a supplied
empty value leaves BaseURL untouched; an absent value defaults on create. -/
def mergeBase (parseOK : String → Bool) (op : Operation) (d : FieldData)
    (cfg : ConfigEntry) : Except Unit ConfigEntry :=
  match d.baseUrl with
  | some v =>
    if v = "" then Except.ok cfg
    else if parseOK v then Except.ok { cfg with baseURL := v }
    else Except.error ()
  | none =>
    if op = Operation.create then Except.ok { cfg with baseURL := "" }
    else Except.ok cfg

/-- ttl merge step of pathConfigWrite (seconds scaled by time.Second). -/
def mergeTTL (op : Operation) (d : FieldData) (cfg : ConfigEntry) : ConfigEntry :=
  match d.ttl with
  | some v => { cfg with ttl := v * timeSecond }
  | none => if op = Operation.create then { cfg with ttl := 0 * timeSecond } else cfg

/-- max_ttl merge step of pathConfigWrite. -/
def mergeMaxTTL (op : Operation) (d : FieldData) (cfg : ConfigEntry) : ConfigEntry :=
  match d.maxTtl with
  | some v => { cfg with maxTTL := v * timeSecond }
  | none => if op = Operation.create then { cfg with maxTTL := 0 * timeSecond } else cfg

/-- The whole field-merge sequence of pathConfigWrite in source order. -/
def mergeFields (parseOK : String → Bool) (op : Operation) (d : FieldData)
    (cfg : ConfigEntry) : Except Unit ConfigEntry :=
  match mergeBase parseOK op d (mergeToken op d (mergeOrg op d cfg)) with
  | Except.error e => Except.error e
  | Except.ok cfg2 => Except.ok (mergeMaxTTL op d (mergeTTL op d cfg2))

/-- Environment of a write call: the url.Parse success predicate and whether
the storage Put succeeds (StorageEntryJSON marshalling of ConfigEntry is
total in Go and is not modelled as fallible). -/
structure WriteEnv where
  parseOK : String → Bool
  putOK : Bool

/-- Outcome of pathConfigWrite: (nil, err), the base_url error response
(returned with a nil error), or success (nil, nil). -/
inductive WriteResult where
  | err
  | errResponse
  | ok
deriving DecidableEq

/-- pathConfigWrite from the source: load the existing config (nil only on
create, replaced by the zero ConfigEntry), merge the request fields in
source order, and persist the merged record; the base_url parse failure
returns the error response before the Put. -/
def pathConfigWrite (env : WriteEnv) (op : Operation) (d : FieldData)
    (st : CfgStore) : WriteResult × CfgStore :=
  match Config st with
  | Except.error _ => (WriteResult.err, st)
  | Except.ok cfgOpt =>
    let cfg0 := cfgOpt.getD ⟨"", "", "", 0, 0⟩
    match mergeFields env.parseOK op d cfg0 with
    | Except.error _ => (WriteResult.errResponse, st)
    | Except.ok cfg =>
      if env.putOK then (WriteResult.ok, CfgStore.stored (some cfg))
      else (WriteResult.err, st)

/-- pathConfigExistenceCheck from the source. -/
def pathConfigExistenceCheck (st : CfgStore) : Except Unit Bool :=
  match Config st with
  | Except.error _ => Except.error ()
  | Except.ok cfgOpt => Except.ok cfgOpt.isSome

end Okta

namespace VaultDB

/-- C1: with no handle for db1, a valid postgres config stored under
dbs/db1, and an open step that succeeds producing fresh handle 42,
DBConnection performs the open (connectCalls = 1) yet returns the
pre-existing nil map value as the handle with a nil error, and stores
nothing in the pool map — contradicting the claim that the freshly created
handle is stored and returned (non-nil). -/
theorem dbconnection_fresh_name_returns_nil_stores_nothing :
    (DBConnection okConnector storageDb1 emptyDbs "db1").result = Except.ok none ∧
    (DBConnection okConnector storageDb1 emptyDbs "db1").dbs "db1" = none ∧
    (DBConnection okConnector storageDb1 emptyDbs "db1").connectCalls = 1 ∧
    okConnector.connect none (EngineConfig.postgres ⟨"host=h"⟩) = some 42 :=
  ⟨rfl, rfl, rfl, rfl⟩

/-- C2: with handle 7 cached for db1 and an open step that fails,
DBConnection still returns success (handle 7, nil error) and leaves the
cached handle in place — the error of the open step is assigned but never
checked, so the current call neither fails nor invalidates the handle. -/
theorem dbconnection_open_failure_swallowed :
    badConnector.connect (dbs7 "db1") (EngineConfig.postgres ⟨"host=h"⟩) = none ∧
    (DBConnection badConnector storageDb1 dbs7 "db1").result = Except.ok (some 7) ∧
    (DBConnection badConnector storageDb1 dbs7 "db1").dbs "db1" = some 7 :=
  ⟨rfl, rfl, rfl⟩

/-- C3: with handle 7 already cached for db1, a further DBConnection call
still reads the stored config, decodes it, and invokes the open step
(connectCalls = 1); and if the stored config is removed while the handle
stays cached, the call fails with the not-configured error instead of
returning the cached handle — so a second acquire re-reads storage and
re-invokes config decode, contradicting the claim. -/
theorem dbconnection_cached_handle_rereads_config :
    (DBConnection okConnector storageDb1 dbs7 "db1").connectCalls = 1 ∧
    (DBConnection okConnector storageDb1 dbs7 "db1").result = Except.ok (some 7) ∧
    (DBConnection okConnector storageEmpty dbs7 "db1").result =
      Except.error DBErr.notConfigured :=
  ⟨rfl, rfl, rfl⟩

/-- C5: two acquire calls for the same never-yet-opened name, run one after
the other exactly as the single lock serializes them, invoke the underlying
open step twice, not once — each call performs its own open because no
handle is ever stored. -/
theorem dbconnection_two_serialized_acquires_two_opens :
    (DBConnection okConnector storageDb1 emptyDbs "db1").connectCalls +
      (DBConnection okConnector storageDb1
        (DBConnection okConnector storageDb1 emptyDbs "db1").dbs "db1").connectCalls
      = 2 :=
  rfl

/-- C4: DBConnection fails with the not-configured error exactly when no
entry is stored under dbs/NAME; and for a stored entry that decodes as
configDB, it fails with the unrecognized-type error exactly when the
database_type tag is neither postgres nor mysql, and with the unmarshal
error exactly when the tag is recognized but the payload does not unmarshal
under that tag's schema; in every failure case no handle is returned. -/
theorem dbconnection_error_taxonomy (conn : Connector) (s : Storage) (dbs : DbsMap)
    (name : String) :
    ((DBConnection conn s dbs name).result = Except.error DBErr.notConfigured ↔
      s ("dbs/" ++ name) = GetResult.absent) ∧
    (∀ e info, s ("dbs/" ++ name) = GetResult.entry e → e.decodeConfigDB = some info →
      (((DBConnection conn s dbs name).result = Except.error DBErr.unrecognizedType) ↔
        (info.databaseType ≠ "postgres" ∧ info.databaseType ≠ "mysql")) ∧
      (((DBConnection conn s dbs name).result = Except.error DBErr.unmarshalErr) ↔
        ((info.databaseType = "postgres" ∧ info.configInfo.asPostgres = none) ∨
         (info.databaseType = "mysql" ∧ info.configInfo.asMySQL = none)))) ∧
    (∀ err, (DBConnection conn s dbs name).result = Except.error err →
      ∀ h, (DBConnection conn s dbs name).result ≠ Except.ok h) := by
  refine ⟨?_, ?_, ?_⟩
  · cases hg : s ("dbs/" ++ name) with
    | err => simp [DBConnection, hg]
    | absent => simp [DBConnection, hg]
    | entry e =>
      cases hd : e.decodeConfigDB with
      | none => simp [DBConnection, hg, hd]
      | some info =>
        by_cases hp : info.databaseType = "postgres"
        · cases hpp : info.configInfo.asPostgres <;> simp [DBConnection, hg, hd, hp, hpp]
        · by_cases hm : info.databaseType = "mysql"
          · cases hmm : info.configInfo.asMySQL <;>
              simp [DBConnection, hg, hd, hp, hm, hmm]
          · simp [DBConnection, hg, hd, hp, hm]
  · intro e info hg hd
    by_cases hp : info.databaseType = "postgres"
    · cases hpp : info.configInfo.asPostgres <;> simp [DBConnection, hg, hd, hp, hpp]
    · by_cases hm : info.databaseType = "mysql"
      · cases hmm : info.configInfo.asMySQL <;> simp [DBConnection, hg, hd, hp, hm, hmm]
      · simp [DBConnection, hg, hd, hp, hm]
  · intro err herr h hok
    rw [herr] at hok
    exact Except.noConfusion hok

/-- C4 witness: with empty storage the call fails not-configured. -/
theorem dbconnection_error_taxonomy_witness :
    (DBConnection okConnector storageEmpty emptyDbs "db1").result =
      Except.error DBErr.notConfigured :=
  (dbconnection_error_taxonomy okConnector storageEmpty emptyDbs "db1").1.mpr rfl

/-- C6: ResetDB closes exactly the handle stored for the name when one is
present and closes nothing when the entry is nil; afterwards the map entry
for the name is nil and every other entry is untouched; a second
consecutive ResetDB for the same name leaves the map identical and closes
nothing. -/
theorem resetdb_closes_once_idempotent (dbs : DbsMap) (name : String) :
    (∀ h, dbs name = some h → (ResetDB dbs name).2 = [h]) ∧
    (dbs name = none → (ResetDB dbs name).2 = []) ∧
    (ResetDB dbs name).1 name = none ∧
    (∀ n, n ≠ name → (ResetDB dbs name).1 n = dbs n) ∧
    (ResetDB (ResetDB dbs name).1 name).1 = (ResetDB dbs name).1 ∧
    (ResetDB (ResetDB dbs name).1 name).2 = [] := by
  refine ⟨?_, ?_, ?_, ?_, ?_, ?_⟩
  · intro h hh
    simp [ResetDB, hh]
  · intro hh
    simp [ResetDB, hh]
  · simp [ResetDB]
  · intro n hn
    simp [ResetDB, hn]
  · funext n
    by_cases hn : n = name <;> simp [ResetDB, hn]
  · simp [ResetDB]

/-- C6 witness: resetting db1 with handle 7 cached closes exactly handle 7,
and the immediately repeated reset closes nothing. -/
theorem resetdb_closes_once_idempotent_witness :
    (ResetDB dbs7 "db1").2 = [7] ∧ (ResetDB (ResetDB dbs7 "db1").1 "db1").2 = [] := by
  have h := resetdb_closes_once_idempotent dbs7 "db1"
  exact ⟨h.1 7 rfl, h.2.2.2.2.2⟩

/-- C7: Lease returns ok-none exactly when no entry is stored under
config/lease (so an absent config is never conflated with a stored one,
zero-valued or not); a stored entry that decodes yields exactly the decoded
config; and the call errors exactly when the storage read fails or the
stored entry does not decode. -/
theorem lease_characterization (s : Storage) :
    (Lease s = Except.ok none ↔ s "config/lease" = GetResult.absent) ∧
    (∀ e cfg, s "config/lease" = GetResult.entry e → e.decodeConfigLease = some cfg →
      Lease s = Except.ok (some cfg)) ∧
    ((∃ err, Lease s = Except.error err) ↔
      (s "config/lease" = GetResult.err ∨
       ∃ e, s "config/lease" = GetResult.entry e ∧ e.decodeConfigLease = none)) := by
  refine ⟨?_, ?_, ?_⟩
  · cases hg : s "config/lease" with
    | err => simp [Lease, hg]
    | absent => simp [Lease, hg]
    | entry e =>
      cases hd : e.decodeConfigLease with
      | none => simp [Lease, hg, hd]
      | some cfg => simp [Lease, hg, hd]
  · intro e cfg hg hd
    simp [Lease, hg, hd]
  · cases hg : s "config/lease" with
    | err => simp [Lease, hg]
    | absent => simp [Lease, hg]
    | entry e =>
      cases hd : e.decodeConfigLease with
      | none => simp [Lease, hg, hd]
      | some cfg => simp [Lease, hg, hd]

/-- A stored lease entry that decodes to 3600s default, 7200s max. -/
def leaseEntry : StorageEntry := ⟨none, some ⟨3600, 7200⟩⟩

/-- Storage holding only the lease entry under config/lease. -/
def storageLease : Storage :=
  fun p => if p = "config/lease" then GetResult.entry leaseEntry else GetResult.absent

/-- C7 witness: a stored lease config is returned decoded, and empty
storage yields the distinguishable unset result. -/
theorem lease_characterization_witness :
    Lease storageLease = Except.ok (some ⟨3600, 7200⟩) ∧
    Lease storageEmpty = Except.ok none :=
  ⟨(lease_characterization storageLease).2.1 leaseEntry ⟨3600, 7200⟩ rfl rfl,
   (lease_characterization storageEmpty).1.mpr rfl⟩

end VaultDB

namespace Okta

/-- The organization merge step changes no field other than Org. -/
theorem mergeOrg_preserves (op : Operation) (d : FieldData) (cfg : ConfigEntry) :
    (mergeOrg op d cfg).token = cfg.token ∧ (mergeOrg op d cfg).baseURL = cfg.baseURL ∧
    (mergeOrg op d cfg).ttl = cfg.ttl ∧ (mergeOrg op d cfg).maxTTL = cfg.maxTTL := by
  obtain ⟨o, t, b, tt, mt⟩ := d
  cases o <;> cases op <;> exact ⟨rfl, rfl, rfl, rfl⟩

/-- The token merge step changes no field other than Token. -/
theorem mergeToken_preserves (op : Operation) (d : FieldData) (cfg : ConfigEntry) :
    (mergeToken op d cfg).org = cfg.org ∧ (mergeToken op d cfg).baseURL = cfg.baseURL ∧
    (mergeToken op d cfg).ttl = cfg.ttl ∧ (mergeToken op d cfg).maxTTL = cfg.maxTTL := by
  obtain ⟨o, t, b, tt, mt⟩ := d
  cases t <;> cases op <;> exact ⟨rfl, rfl, rfl, rfl⟩

/-- A successful base_url merge step changes no field other than BaseURL. -/
theorem mergeBase_preserves (p : String → Bool) (op : Operation) (d : FieldData)
    (cfg cfg2 : ConfigEntry) (h : mergeBase p op d cfg = Except.ok cfg2) :
    cfg2.org = cfg.org ∧ cfg2.token = cfg.token ∧
    cfg2.ttl = cfg.ttl ∧ cfg2.maxTTL = cfg.maxTTL := by
  obtain ⟨o, t, b, tt, mt⟩ := d
  cases b with
  | some v =>
    by_cases hv : v = ""
    · subst hv
      simp [mergeBase] at h
      subst h
      exact ⟨rfl, rfl, rfl, rfl⟩
    · by_cases hpv : p v = true
      · simp [mergeBase, hv, hpv] at h
        subst h
        exact ⟨rfl, rfl, rfl, rfl⟩
      · simp [mergeBase, hv, hpv] at h
  | none =>
    cases op <;> simp [mergeBase] at h <;> subst h <;> exact ⟨rfl, rfl, rfl, rfl⟩

/-- The ttl merge step changes no field other than TTL. -/
theorem mergeTTL_preserves (op : Operation) (d : FieldData) (cfg : ConfigEntry) :
    (mergeTTL op d cfg).org = cfg.org ∧ (mergeTTL op d cfg).token = cfg.token ∧
    (mergeTTL op d cfg).baseURL = cfg.baseURL ∧ (mergeTTL op d cfg).maxTTL = cfg.maxTTL := by
  obtain ⟨o, t, b, tt, mt⟩ := d
  cases tt <;> cases op <;> exact ⟨rfl, rfl, rfl, rfl⟩

/-- The max_ttl merge step changes no field other than MaxTTL. -/
theorem mergeMaxTTL_preserves (op : Operation) (d : FieldData) (cfg : ConfigEntry) :
    (mergeMaxTTL op d cfg).org = cfg.org ∧ (mergeMaxTTL op d cfg).token = cfg.token ∧
    (mergeMaxTTL op d cfg).baseURL = cfg.baseURL ∧ (mergeMaxTTL op d cfg).ttl = cfg.ttl := by
  obtain ⟨o, t, b, tt, mt⟩ := d
  cases mt <;> cases op <;> exact ⟨rfl, rfl, rfl, rfl⟩

/-- Inversion of a successful whole-field merge into its stages. -/
theorem mergeFields_inv (p : String → Bool) (op : Operation) (d : FieldData)
    (c m : ConfigEntry) (h : mergeFields p op d c = Except.ok m) :
    ∃ c2, mergeBase p op d (mergeToken op d (mergeOrg op d c)) = Except.ok c2 ∧
      m = mergeMaxTTL op d (mergeTTL op d c2) := by
  unfold mergeFields at h
  cases hb : mergeBase p op d (mergeToken op d (mergeOrg op d c)) with
  | error e =>
    rw [hb] at h
    exact Except.noConfusion h
  | ok c2 =>
    rw [hb] at h
    refine ⟨c2, rfl, ?_⟩
    injection h with h
    exact h.symm

/-- An absent organization field is left unchanged on update and set to the
request default (empty string) on create. -/
theorem mergeOrg_absent (d : FieldData) (cfg : ConfigEntry)
    (h : d.organization = none) :
    (mergeOrg Operation.update d cfg).org = cfg.org ∧
    (mergeOrg Operation.create d cfg).org = "" := by
  unfold mergeOrg
  rw [h]
  exact ⟨rfl, rfl⟩

/-- An absent token field is left unchanged on update and defaulted on create. -/
theorem mergeToken_absent (d : FieldData) (cfg : ConfigEntry) (h : d.token = none) :
    (mergeToken Operation.update d cfg).token = cfg.token ∧
    (mergeToken Operation.create d cfg).token = "" := by
  unfold mergeToken
  rw [h]
  exact ⟨rfl, rfl⟩

/-- An absent base_url field is left unchanged on update and defaulted on
create; in both cases the step succeeds. -/
theorem mergeBase_absent (p : String → Bool) (d : FieldData) (cfg : ConfigEntry)
    (h : d.baseUrl = none) :
    mergeBase p Operation.update d cfg = Except.ok cfg ∧
    mergeBase p Operation.create d cfg = Except.ok { cfg with baseURL := "" } := by
  unfold mergeBase
  rw [h]
  exact ⟨rfl, rfl⟩

/-- An absent ttl field is left unchanged on update and defaulted on create. -/
theorem mergeTTL_absent (d : FieldData) (cfg : ConfigEntry) (h : d.ttl = none) :
    (mergeTTL Operation.update d cfg).ttl = cfg.ttl ∧
    (mergeTTL Operation.create d cfg).ttl = 0 := by
  unfold mergeTTL
  rw [h]
  exact ⟨rfl, by simp⟩

/-- An absent max_ttl field is left unchanged on update and defaulted on create. -/
theorem mergeMaxTTL_absent (d : FieldData) (cfg : ConfigEntry) (h : d.maxTtl = none) :
    (mergeMaxTTL Operation.update d cfg).maxTTL = cfg.maxTTL ∧
    (mergeMaxTTL Operation.create d cfg).maxTTL = 0 := by
  unfold mergeMaxTTL
  rw [h]
  exact ⟨rfl, by simp⟩

/-- Field projections of a successful whole merge: org after the merge is
the org after the organization step, and so on for each field. -/
theorem mergeFields_proj (p : String → Bool) (op : Operation) (d : FieldData)
    (c m : ConfigEntry) (h : mergeFields p op d c = Except.ok m) :
    m.org = (mergeOrg op d c).org ∧
    m.token = (mergeToken op d c).token ∧
    m.ttl = (mergeTTL op d c).ttl ∧
    m.maxTTL = (mergeMaxTTL op d c).maxTTL := by
  obtain ⟨c2, hb, hm⟩ := mergeFields_inv p op d c m h
  obtain ⟨hbo, hbt, hbl, hbx⟩ := mergeBase_preserves p op d _ c2 hb
  refine ⟨?_, ?_, ?_, ?_⟩
  · rw [hm, (mergeMaxTTL_preserves op d _).1, (mergeTTL_preserves op d c2).1, hbo,
      (mergeToken_preserves op d _).1]
  · rw [hm, (mergeMaxTTL_preserves op d _).2.1, (mergeTTL_preserves op d c2).2.1, hbt]
    have h1 := (mergeOrg_preserves op d c).1
    unfold mergeToken
    cases ht : d.token with
    | some v => rfl
    | none => cases op <;> simpa using h1
  · rw [hm, (mergeMaxTTL_preserves op d _).2.2.2]
    have h2 : c2.ttl = c.ttl := by
      rw [hbl, (mergeToken_preserves op d _).2.2.1, (mergeOrg_preserves op d c).2.2.1]
    unfold mergeTTL
    cases htt : d.ttl with
    | some v => rfl
    | none => cases op <;> simpa using h2
  · rw [hm]
    have h2 : (mergeTTL op d c2).maxTTL = c.maxTTL := by
      rw [(mergeTTL_preserves op d c2).2.2.2, hbx,
        (mergeToken_preserves op d _).2.2.2, (mergeOrg_preserves op d c).2.2.2]
    unfold mergeMaxTTL
    cases hmt : d.maxTtl with
    | some v => rfl
    | none => cases op <;> simpa using h2

/-- The zero ConfigEntry the handler builds when no config is stored yet. -/
def zeroEntry : ConfigEntry := ⟨"", "", "", 0, 0⟩

/-- C8: on an update operation every request field that is absent leaves
the corresponding field of the stored ConfigEntry unchanged, while on a
create operation an absent field is set from the request default (the
schema's zero value: empty string, 0); and the record the merge produces is
exactly what pathConfigWrite persists, both on update over the stored entry
and on create over the zero entry. -/
theorem pathConfigWrite_merge_semantics (env : WriteEnv) (d : FieldData)
    (c m mc : ConfigEntry)
    (hu : mergeFields env.parseOK Operation.update d c = Except.ok m)
    (hc : mergeFields env.parseOK Operation.create d zeroEntry = Except.ok mc)
    (hput : env.putOK = true) :
    (d.organization = none → m.org = c.org ∧ mc.org = "") ∧
    (d.token = none → m.token = c.token ∧ mc.token = "") ∧
    (d.baseUrl = none → m.baseURL = c.baseURL ∧ mc.baseURL = "") ∧
    (d.ttl = none → m.ttl = c.ttl ∧ mc.ttl = 0) ∧
    (d.maxTtl = none → m.maxTTL = c.maxTTL ∧ mc.maxTTL = 0) ∧
    pathConfigWrite env Operation.update d (CfgStore.stored (some c)) =
      (WriteResult.ok, CfgStore.stored (some m)) ∧
    pathConfigWrite env Operation.create d CfgStore.absent =
      (WriteResult.ok, CfgStore.stored (some mc)) := by
  obtain ⟨pu1, pu2, pu3, pu4⟩ := mergeFields_proj env.parseOK Operation.update d c m hu
  obtain ⟨pc1, pc2, pc3, pc4⟩ :=
    mergeFields_proj env.parseOK Operation.create d zeroEntry mc hc
  obtain ⟨cu2, hbu, hmu⟩ := mergeFields_inv env.parseOK Operation.update d c m hu
  obtain ⟨cc2, hbc, hmc⟩ := mergeFields_inv env.parseOK Operation.create d zeroEntry mc hc
  refine ⟨?_, ?_, ?_, ?_, ?_, ?_, ?_⟩
  · intro hab
    constructor
    · rw [pu1, (mergeOrg_absent d c hab).1]
    · rw [pc1, (mergeOrg_absent d zeroEntry hab).2]
  · intro hab
    constructor
    · rw [pu2, (mergeToken_absent d c hab).1]
    · rw [pc2, (mergeToken_absent d zeroEntry hab).2]
  · intro hab
    constructor
    · have hb2 := (mergeBase_absent env.parseOK d
        (mergeToken Operation.update d (mergeOrg Operation.update d c)) hab).1
      rw [hbu] at hb2
      injection hb2 with hb2
      rw [hmu, (mergeMaxTTL_preserves Operation.update d _).2.2.1,
        (mergeTTL_preserves Operation.update d cu2).2.2.1, hb2,
        (mergeToken_preserves Operation.update d _).2.1,
        (mergeOrg_preserves Operation.update d c).2.1]
    · have hb2 := (mergeBase_absent env.parseOK d
        (mergeToken Operation.create d (mergeOrg Operation.create d zeroEntry)) hab).2
      rw [hbc] at hb2
      injection hb2 with hb2
      rw [hmc, (mergeMaxTTL_preserves Operation.create d _).2.2.1,
        (mergeTTL_preserves Operation.create d cc2).2.2.1, hb2]
  · intro hab
    constructor
    · rw [pu3, (mergeTTL_absent d c hab).1]
    · rw [pc3, (mergeTTL_absent d zeroEntry hab).2]
  · intro hab
    constructor
    · rw [pu4, (mergeMaxTTL_absent d c hab).1]
    · rw [pc4, (mergeMaxTTL_absent d zeroEntry hab).2]
  · show (match Config (CfgStore.stored (some c)) with
      | Except.error _ => (WriteResult.err, CfgStore.stored (some c))
      | Except.ok cfgOpt =>
        match mergeFields env.parseOK Operation.update d (cfgOpt.getD ⟨"", "", "", 0, 0⟩) with
        | Except.error _ => (WriteResult.errResponse, CfgStore.stored (some c))
        | Except.ok cfg =>
          if env.putOK then (WriteResult.ok, CfgStore.stored (some cfg))
          else (WriteResult.err, CfgStore.stored (some c))) =
      (WriteResult.ok, CfgStore.stored (some m))
    show (match mergeFields env.parseOK Operation.update d c with
      | Except.error _ => (WriteResult.errResponse, CfgStore.stored (some c))
      | Except.ok cfg =>
        if env.putOK then (WriteResult.ok, CfgStore.stored (some cfg))
        else (WriteResult.err, CfgStore.stored (some c))) =
      (WriteResult.ok, CfgStore.stored (some m))
    rw [hu, hput]
    simp
  · show (match mergeFields env.parseOK Operation.create d zeroEntry with
      | Except.error _ => (WriteResult.errResponse, CfgStore.absent)
      | Except.ok cfg =>
        if env.putOK then (WriteResult.ok, CfgStore.stored (some cfg))
        else (WriteResult.err, CfgStore.absent)) =
      (WriteResult.ok, CfgStore.stored (some mc))
    rw [hc, hput]
    simp

/-- Request data with every field absent. -/
def dAbsent : FieldData := ⟨none, none, none, none, none⟩

/-- A sample stored ConfigEntry. -/
def cSample : ConfigEntry := ⟨"acme", "secret-token", "https://api", 5, 6⟩

/-- C8 witness: an all-absent update persists the stored record unchanged,
and an all-absent create persists the zero record. -/
theorem pathConfigWrite_merge_semantics_witness :
    pathConfigWrite ⟨fun _ => true, true⟩ Operation.update dAbsent
      (CfgStore.stored (some cSample)) =
      (WriteResult.ok, CfgStore.stored (some cSample)) ∧
    pathConfigWrite ⟨fun _ => true, true⟩ Operation.create dAbsent CfgStore.absent =
      (WriteResult.ok, CfgStore.stored (some zeroEntry)) := by
  have h := pathConfigWrite_merge_semantics ⟨fun _ => true, true⟩ dAbsent cSample cSample
    zeroEntry rfl rfl rfl
  exact ⟨h.2.2.2.2.2.1, h.2.2.2.2.2.2⟩

/-- C9: pathConfigRead never exposes the stored admin API token: the
response carries exactly organization, base_url, ttl and max_ttl, and two
stored configs that differ only in the Token field produce identical read
responses. -/
theorem pathConfigRead_token_noninterference (c : ConfigEntry) (t : String) :
    pathConfigRead (CfgStore.stored (some { c with token := t })) =
      pathConfigRead (CfgStore.stored (some c)) ∧
    pathConfigRead (CfgStore.stored (some c)) =
      ReadResult.resp ⟨c.org, c.baseURL, c.ttl, c.maxTTL⟩ :=
  ⟨rfl, rfl⟩

/-- C10: when the request supplies a non-empty base_url that fails URL
parsing, pathConfigWrite returns the error response and performs no
storage write: the stored configuration is exactly what it was before the
call (assuming the initial config read itself succeeds, which is the only
path on which the parse runs). -/
theorem pathConfigWrite_bad_url_no_write (env : WriteEnv) (op : Operation)
    (d : FieldData) (st : CfgStore) (co : Option ConfigEntry) (v : String)
    (hst : Config st = Except.ok co) (hb : d.baseUrl = some v) (hne : v ≠ "")
    (hp : env.parseOK v = false) :
    pathConfigWrite env op d st = (WriteResult.errResponse, st) := by
  have hbase : ∀ cfg, mergeBase env.parseOK op d cfg = Except.error () := by
    intro cfg
    unfold mergeBase
    rw [hb]
    simp [hne, hp]
  have hmf : ∀ cfg, mergeFields env.parseOK op d cfg = Except.error () := by
    intro cfg
    unfold mergeFields
    rw [hbase]
  unfold pathConfigWrite
  rw [hst]
  show (match mergeFields env.parseOK op d (co.getD ⟨"", "", "", 0, 0⟩) with
    | Except.error _ => (WriteResult.errResponse, st)
    | Except.ok cfg =>
      if env.putOK then (WriteResult.ok, CfgStore.stored (some cfg))
      else (WriteResult.err, st)) = (WriteResult.errResponse, st)
  rw [hmf]

/-- Request data supplying only a malformed base_url. -/
def dBadUrl : FieldData := ⟨none, none, some "http://%zz", none, none⟩

/-- C10 witness: a write carrying an unparseable base_url over a stored
config returns the error response and leaves the store untouched. -/
theorem pathConfigWrite_bad_url_no_write_witness :
    pathConfigWrite ⟨fun _ => false, true⟩ Operation.update dBadUrl
      (CfgStore.stored (some cSample)) =
      (WriteResult.errResponse, CfgStore.stored (some cSample)) :=
  pathConfigWrite_bad_url_no_write ⟨fun _ => false, true⟩ Operation.update dBadUrl
    (CfgStore.stored (some cSample)) (some cSample) "http://%zz" rfl rfl
    (by decide) rfl

end Okta
